import Mathlib

/-!
Formal model of the session-supervision daemon of this repository
(`amplifier.session_monitor` and the checkpoint/resume layer of
`amplifier.ccsdk_toolkit.sessions`), together with proofs of its
specified properties.  The implementation modules themselves are not
present in the source tree (only their tests and callers are), so each
operation is modelled from the specification text, as noted in its doc
comment.  Floats are modelled as exact rationals, the file system as a
partial map from path strings to file contents, and process liveness as
an explicit boolean-valued probe.
-/

namespace SessionMonitor

/-- A file system: maps a path to the file content when the file exists.
Modelled from the spec: the daemon and the estimator coordinate through
per-workspace files (spec section 6); a missing file is `none`. -/
def FileSystem : Type := String → Option String

/-- Modelled from the spec: the `TokenUsageSnapshot` value type
`\x7bestimated_tokens : int, usage_pct : float, source\x7d` (spec section 3);
the source tag is the string the tests observe ("session_log",
"transcript", "no_files", "session_log_missing"). -/
structure TokenUsageSnapshot where
  estimated_tokens : ℤ
  usage_pct : ℚ
  source : String
deriving DecidableEq

/-- Modelled from the spec: the `MonitorConfig` data contract
(spec section 3), loaded once and immutable thereafter. -/
structure MonitorConfig where
  workspace_base_dir : String
  check_interval_seconds : ℚ
  token_warning_threshold : ℚ
  token_critical_threshold : ℚ
  max_restart_attempts : Nat
  restart_backoff_seconds : ℚ
deriving DecidableEq

/-- Word-count scan over the characters of a text: a word starts at each
non-whitespace character that is not already inside a word.  The flag
records whether the scan is currently inside a word. -/
def countWordsAux : List Char → Bool → Nat
  | [], _ => 0
  | c :: cs, inWord =>
    if c.isWhitespace then countWordsAux cs false
    else (if inWord then 0 else 1) + countWordsAux cs true

/-- Number of whitespace-separated words in a text: split on whitespace
runs and drop the empty pieces, as Python `str.split()` does. -/
def countWords (text : String) : Nat :=
  countWordsAux text.data false

/-- The word-count heuristic: multiply the word count by the fixed
constant 1.3 and round to the nearest integer (spec section 4.1). -/
def tokensOfWords (words : Nat) : ℤ :=
  round ((words : ℚ) * 13 / 10)

/-- Usage as a percentage of the 100,000-token budget:
`usage_pct = estimated_tokens / 100000 * 100` (spec section 4.1). -/
def pctOfTokens (tokens : ℤ) : ℚ :=
  (tokens : ℚ) / 100000 * 100

/-- Modelled from the spec: `estimate_from_session_log(path)`
(spec section 4.1): if the file does not exist return
`\x7b0, 0.0, SESSION_LOG_MISSING\x7d`; otherwise read the full text, count
whitespace-separated words, apply the 1.3 multiplier and the
percentage formula, tagged `SESSION_LOG`. -/
def estimate_from_session_log (fs : FileSystem) (path : String) :
    TokenUsageSnapshot :=
  match fs path with
  | none => ⟨0, 0, "session_log_missing"⟩
  | some text =>
      let tokens := tokensOfWords (countWords text)
      ⟨tokens, pctOfTokens tokens, "session_log"⟩

/-- The lines of a transcript file, one structured record per line. -/
def splitLines (text : String) : List String :=
  text.splitOn "\n"

/-- Modelled from the spec: `estimate_from_transcript(path)`
(spec section 4.1): the file is a sequence of structured records, one per
line; the textual content of the well-formed records is concatenated and
the same word-count heuristic applies, tagged `TRANSCRIPT`; malformed
lines are skipped, not fatal.  Extraction of the textual content field
from one record line is abstracted as the `extract` parameter, which
returns `none` on a malformed line. -/
def estimate_from_transcript (extract : String → Option String)
    (fs : FileSystem) (path : String) : TokenUsageSnapshot :=
  match fs path with
  | none => ⟨0, 0, "transcript"⟩
  | some text =>
      let contents := (splitLines text).filterMap extract
      let tokens := tokensOfWords (countWords (String.join contents))
      ⟨tokens, pctOfTokens tokens, "transcript"⟩

/-- Location of the structured per-message transcript for a workspace,
the preferred token-usage source (spec section 6). -/
def transcriptPath (workspace_id : String) : String :=
  ".config/claude/projects/" ++ workspace_id ++ "/" ++ workspace_id ++ ".jsonl"

/-- Location of the plain session log for a workspace, the fallback
token-usage source (spec section 6). -/
def sessionLogPath (workspace_id : String) : String :=
  ".codex/workspaces/" ++ workspace_id ++ "/session.log"

/-- Modelled from the spec: `get_current_usage(workspace_id)`
(spec section 4.1): try the structured transcript location first; if
absent fall back to the plain session log location; if neither exists
return `\x7b0, 0.0, NO_FILES\x7d`. -/
def get_current_usage (extract : String → Option String)
    (fs : FileSystem) (workspace_id : String) : TokenUsageSnapshot :=
  if (fs (transcriptPath workspace_id)).isSome then
    estimate_from_transcript extract fs (transcriptPath workspace_id)
  else if (fs (sessionLogPath workspace_id)).isSome then
    estimate_from_session_log fs (sessionLogPath workspace_id)
  else ⟨0, 0, "no_files"⟩

/-- `sub` occurs as a contiguous substring of `s`. -/
def strContains (s sub : String) : Prop :=
  ∃ a b, s = a ++ sub ++ b

/-- Modelled from the spec: `should_terminate(usage, config)`
(spec section 4.1): `usage_pct >= critical_threshold` gives
`(true, "... exceeds critical threshold")`; else
`usage_pct >= warning_threshold` gives
`(false, "... exceeds warning threshold")`; else
`(false, "... within safe limits")`. -/
def should_terminate (usage : TokenUsageSnapshot) (config : MonitorConfig) :
    Bool × String :=
  if config.token_critical_threshold ≤ usage.usage_pct then
    (true, "Token usage " ++ toString usage.usage_pct ++
      "% exceeds critical threshold")
  else if config.token_warning_threshold ≤ usage.usage_pct then
    (false, "Token usage " ++ toString usage.usage_pct ++
      "% exceeds warning threshold")
  else
    (false, "Token usage " ++ toString usage.usage_pct ++
      "% within safe limits")

/-- Modelled from the spec: the `reason` enum of a termination request
(spec section 3). -/
inductive TerminationReason
  | token_limit_approaching
  | manual
  | error
  | other
deriving DecidableEq

/-- Modelled from the spec: the `priority` enum of a termination request,
governing the wait timeout (spec section 3). -/
inductive TerminationPriority
  | graceful
  | immediate
deriving DecidableEq

/-- Modelled from the spec: the `TerminationRequest` data contract
(spec section 3), written once by a requester and consumed by the
daemon. -/
structure TerminationRequest where
  reason : TerminationReason
  continuation_command : String
  priority : TerminationPriority
  token_usage_pct : ℚ
  pid : Nat
  workspace_id : String
deriving DecidableEq

/-- The signals the termination state machine can send. -/
inductive Signal
  | SIGTERM
  | SIGKILL
deriving DecidableEq

/-- Modelled from the spec: the priority-dependent wait timeout in seconds
(spec section 4.2): GRACEFUL waits up to 30 seconds, IMMEDIATE up to 5. -/
def waitTimeout : TerminationPriority → Nat
  | .graceful => 30
  | .immediate => 5

/-- Modelled from the spec: `_wait_for_process_exit` polls liveness once
per second up to the timeout; `alive t` is the liveness probe at second
`t`.  Returns `true` when the process exited within the window. -/
def wait_for_process_exit (alive : Nat → Bool) (timeout : Nat) : Bool :=
  (List.range timeout).any fun t => !alive (t + 1)

/-- The observable behaviour of one `_terminate_session` run: the signals
sent, in order, and the wait timeout that was used between them. -/
structure TerminationTrace where
  signals : List Signal
  timeoutUsed : Nat
deriving DecidableEq

/-- Modelled from the spec: the termination state machine of
`_terminate_session` (spec section 4.2): send SIGTERM, wait up to the
priority-dependent timeout for the process to exit by polling liveness,
and if it is still alive send SIGKILL (unconditional, best-effort). -/
def terminate_session (req : TerminationRequest) (alive : Nat → Bool) :
    TerminationTrace :=
  let timeout := waitTimeout req.priority
  if wait_for_process_exit alive timeout then ⟨[Signal.SIGTERM], timeout⟩
  else ⟨[Signal.SIGTERM, Signal.SIGKILL], timeout⟩

/-- Remove a file from the modelled file system. -/
def deleteFile (fs : FileSystem) (path : String) : FileSystem :=
  fun q => if q = path then none else fs q

/-- Path of the termination-request file inside a workspace directory
(spec section 6). -/
def requestPath (workspace_id : String) : String :=
  workspace_id ++ "/termination-request"

/-- Modelled from the spec: one scan cycle (spec section 4.2 step 1)
returns the workspaces that currently contain a termination-request
file. -/
def scan_workspaces (fs : FileSystem) (dirs : List String) : List String :=
  dirs.filter fun w => (fs (requestPath w)).isSome

/-- Modelled from the spec: `handle_termination_request`
(spec section 4.2 steps 2 to 4): load the request file; on parse failure
log and delete the file (malformed requests are permanently dropped);
validate pid liveness and drop the request (log, delete file) when the
process is not alive; if valid, delete the request file immediately
(at-most-once consumption) and then execute termination.  `parse`
abstracts JSON decoding and `aliveNow` the liveness probe.  Returns the
file system after handling, the paths deleted in order, and the request
passed on to termination, if any. -/
def handle_termination_request (parse : String → Option TerminationRequest)
    (aliveNow : Nat → Bool) (fs : FileSystem) (path : String) :
    FileSystem × List String × Option TerminationRequest :=
  match fs path with
  | none => (fs, [], none)
  | some content =>
    match parse content with
    | none => (deleteFile fs path, [path], none)
    | some req =>
      if aliveNow req.pid then (deleteFile fs path, [path], some req)
      else (deleteFile fs path, [path], none)

/-- Handle a sequence of request files one after the other, threading the
file system through. -/
def handleAll (parse : String → Option TerminationRequest)
    (aliveNow : Nat → Bool) (fs : FileSystem) (paths : List String) :
    FileSystem :=
  paths.foldl
    (fun f p => (handle_termination_request parse aliveNow f p).1) fs

/-- The observable outcome of one `_restart_session` run: how many
subprocess launches were attempted, the backoff sleeps performed in
order, whether a launch succeeded, and how many error log entries were
emitted. -/
structure RestartResult where
  launches : Nat
  sleeps : List ℚ
  succeeded : Bool
  errorLogs : Nat
deriving DecidableEq

/-- Modelled from the spec: the bounded retry loop of restart-with-backoff
(spec section 4.2).  `launch k` is the outcome of the k-th (1-indexed)
subprocess launch attempt; `fuel` is the number of attempts remaining.
On success the loop stops; on failure with attempts remaining it sleeps
`backoff * 2 ^ (k - 1)` and retries; after exhausting all attempts it
gives up.  Returns the number of launches, the sleeps in order, and
whether a launch succeeded. -/
def restartLoop (backoff : ℚ) (launch : Nat → Bool) :
    Nat → Nat → Nat × List ℚ × Bool
  | 0, _ => (0, [], false)
  | 1, k => if launch k then (1, [], true) else (1, [], false)
  | fuel + 2, k =>
    if launch k then (1, [], true)
    else
      let rest := restartLoop backoff launch (fuel + 1) (k + 1)
      (rest.1 + 1, backoff * 2 ^ (k - 1) :: rest.2.1, rest.2.2)

/-- Modelled from the spec: `_restart_session` (spec section 4.2): verify
the workspace directory still exists — if not, log an error and abort
with no attempt (no subprocess spawned, no retry); otherwise run the
bounded retry loop over at most `max_restart_attempts` launches, and log
a permanent failure after exhausting them. -/
def restart_session (cfg : MonitorConfig) (workspaceExists : Bool)
    (launch : Nat → Bool) : RestartResult :=
  if workspaceExists then
    let r := restartLoop cfg.restart_backoff_seconds launch
      cfg.max_restart_attempts 1
    ⟨r.1, r.2.1, r.2.2, if r.2.2 then 0 else 1⟩
  else ⟨0, [], false, 1⟩

/-- An opaque checkpoint payload: modelled as a finite key-value
mapping. -/
abbrev CheckpointData : Type := List (String × String)

/-- Modelled from the spec: the per-session state owned by the session
store (spec section 4.3); `checkpoint_data`, `last_checkpoint_at` and the
token-usage history extend the base session fields (identifier, messages,
context, config), and default to absent/empty on a freshly constructed
session. -/
structure SessionState where
  session_id : String
  messages : List String
  context : List (String × String)
  config : List (String × String)
  checkpoint_data : Option CheckpointData := none
  last_checkpoint_at : Option Nat := none
  token_usage_history : List TokenUsageSnapshot := []
deriving DecidableEq

/-- A freshly constructed session state: no checkpoint was ever created
and the token-usage history is empty. -/
def SessionState.new (sid : String) (messages : List String)
    (context config : List (String × String)) : SessionState :=
  { session_id := sid, messages := messages, context := context,
    config := config }

/-- Modelled from the spec: `create_checkpoint(data)` on a session value
sets `checkpoint_data = data` and `last_checkpoint_at = now`
(spec section 4.3). -/
def create_checkpoint (s : SessionState) (d : CheckpointData) (now : Nat) :
    SessionState :=
  { s with checkpoint_data := some d, last_checkpoint_at := some now }

/-- Modelled from the spec: `restore_from_checkpoint()` returns the stored
checkpoint data, or a not-found signal (`none`) if no checkpoint was ever
created (spec section 4.3). -/
def restore_from_checkpoint (s : SessionState) : Option CheckpointData :=
  s.checkpoint_data

/-- Modelled from the spec: `record_token_usage(snapshot)` appends to the
insertion-order history, with no deduplication and no cap
(spec section 4.3). -/
def record_token_usage (s : SessionState) (u : TokenUsageSnapshot) :
    SessionState :=
  { s with token_usage_history := s.token_usage_history ++ [u] }

/-- Modelled from the spec: the checkpoint record persisted per session
(spec sections 3 and 6). -/
structure CheckpointRecord where
  session_id : String
  checkpoint_data : CheckpointData
  timestamp : Nat
deriving DecidableEq

/-- The per-session checkpoint store: maps a session id to the latest
record, if any. -/
def CheckpointStore : Type := String → Option CheckpointRecord

/-- Modelled from the spec: `save_checkpoint(session_id, data)` overwrites
any prior checkpoint for that session (spec section 4.3). -/
def save_checkpoint (st : CheckpointStore) (sid : String)
    (d : CheckpointData) (now : Nat) : CheckpointStore :=
  fun q => if q = sid then some ⟨sid, d, now⟩ else st q

/-- Modelled from the spec: `load_checkpoint(session_id)` returns the
stored record or a not-found signal (spec section 4.3). -/
def load_checkpoint (st : CheckpointStore) (sid : String) :
    Option CheckpointRecord :=
  st sid

/-- A store in which no checkpoint was ever saved. -/
def emptyStore : CheckpointStore := fun _ => none

/-- Concatenation of strings is associative. -/
theorem str_append_assoc (a b c : String) : a ++ b ++ c = a ++ (b ++ c) := by
  cases a; cases b; cases c
  show String.mk _ = String.mk _
  simp [String.append, List.append_assoc]

/-- The empty string is a right identity for concatenation. -/
theorem str_append_empty (s : String) : s ++ "" = s := by
  cases s
  show String.mk _ = String.mk _
  simp [String.append]

/-- A string assembled as `x ++ (pre ++ sub ++ post)` contains `sub`. -/
theorem strContains_append_three (x pre sub post : String) :
    strContains (x ++ (pre ++ sub ++ post)) sub := by
  refine ⟨x ++ pre, post, ?_⟩
  rw [str_append_assoc (x ++ pre) sub post, str_append_assoc x pre (sub ++ post),
    str_append_assoc pre sub post]

/-- A string assembled as `x ++ (pre ++ sub)` contains `sub`. -/
theorem strContains_suffix (x pre sub : String) :
    strContains (x ++ (pre ++ sub)) sub := by
  refine ⟨x ++ pre, "", ?_⟩
  rw [str_append_empty, str_append_assoc]

/-- The transcript estimator always tags its snapshot with source
"transcript", whether or not the file exists. -/
theorem estimate_from_transcript_source (extract : String → Option String)
    (fs : FileSystem) (path : String) :
    (estimate_from_transcript extract fs path).source = "transcript" := by
  unfold estimate_from_transcript
  cases fs path <;> rfl

/-- The session-log estimator tags its snapshot with source "session_log"
whenever the file exists. -/
theorem estimate_from_session_log_source_present (fs : FileSystem)
    (path : String) (h : (fs path).isSome) :
    (estimate_from_session_log fs path).source = "session_log" := by
  unfold estimate_from_session_log
  obtain ⟨t, ht⟩ := Option.isSome_iff_exists.mp h
  rw [ht]

/-- Claim C9: `estimate_from_session_log` on a nonexistent path returns
`\x7bestimated_tokens := 0, usage_pct := 0.0, source := SESSION_LOG_MISSING\x7d`;
the function is total, so missing input is never fatal. -/
theorem estimate_from_session_log_missing (fs : FileSystem) (path : String)
    (h : fs path = none) :
    estimate_from_session_log fs path = ⟨0, 0, "session_log_missing"⟩ := by
  simp [estimate_from_session_log, h]

/-- Witness for C9 at the concrete path of the test, on an empty file
system. -/
theorem estimate_from_session_log_missing_witness :
    estimate_from_session_log (fun _ => none) "/tmp/non_existent_session.log"
      = ⟨0, 0, "session_log_missing"⟩ :=
  estimate_from_session_log_missing (fun _ => none)
    "/tmp/non_existent_session.log" rfl

/-- Claim C8: on an existing file whose content splits on whitespace into
`n` words, `estimate_from_session_log` returns `estimated_tokens` equal to
`n * 1.3` rounded to the nearest integer and
`usage_pct = estimated_tokens / 100000 * 100`; in particular a file of
exactly 100 whitespace-separated words yields `estimated_tokens = 130`. -/
theorem estimate_from_session_log_formula (fs : FileSystem)
    (path text : String) (h : fs path = some text) :
    (estimate_from_session_log fs path).estimated_tokens
        = round ((countWords text : ℚ) * 13 / 10)
      ∧ (estimate_from_session_log fs path).usage_pct
        = ((estimate_from_session_log fs path).estimated_tokens : ℚ)
            / 100000 * 100
      ∧ (countWords text = 100 →
          (estimate_from_session_log fs path).estimated_tokens = 130) := by
  have e : estimate_from_session_log fs path
      = ⟨tokensOfWords (countWords text),
          pctOfTokens (tokensOfWords (countWords text)), "session_log"⟩ := by
    simp [estimate_from_session_log, h]
  rw [e]
  refine ⟨rfl, rfl, fun h100 => ?_⟩
  show tokensOfWords (countWords text) = 130
  rw [h100]
  norm_num [tokensOfWords, round_eq]

/-- Witness for C8 on a concrete three-word file. -/
theorem estimate_from_session_log_formula_witness :
    ((fun _ => some "alpha beta gamma" : FileSystem) "session.log"
        = some "alpha beta gamma")
      ∧ (estimate_from_session_log (fun _ => some "alpha beta gamma")
            "session.log").estimated_tokens
          = round ((countWords "alpha beta gamma" : ℚ) * 13 / 10) :=
  ⟨rfl, (estimate_from_session_log_formula
    (fun _ => some "alpha beta gamma") "session.log" "alpha beta gamma"
    rfl).1⟩

/-- Claim C7: `get_current_usage` tries the structured transcript location
first and returns a snapshot with source "transcript" when it exists; if
absent it falls back to the plain session log location with source
"session_log"; if neither file exists it returns `⟨0, 0, "no_files"⟩`. -/
theorem get_current_usage_fallback (extract : String → Option String)
    (fs : FileSystem) (wid : String) :
    ((fs (transcriptPath wid)).isSome →
        get_current_usage extract fs wid
            = estimate_from_transcript extract fs (transcriptPath wid)
          ∧ (get_current_usage extract fs wid).source = "transcript")
      ∧ (fs (transcriptPath wid) = none →
          (fs (sessionLogPath wid)).isSome →
          get_current_usage extract fs wid
              = estimate_from_session_log fs (sessionLogPath wid)
            ∧ (get_current_usage extract fs wid).source = "session_log")
      ∧ (fs (transcriptPath wid) = none →
          fs (sessionLogPath wid) = none →
          get_current_usage extract fs wid = ⟨0, 0, "no_files"⟩) := by
  refine ⟨fun h1 => ?_, fun h1 h2 => ?_, fun h1 h2 => ?_⟩
  · have e : get_current_usage extract fs wid
        = estimate_from_transcript extract fs (transcriptPath wid) := by
      simp [get_current_usage, h1]
    exact ⟨e, by rw [e]; exact estimate_from_transcript_source extract fs _⟩
  · have e : get_current_usage extract fs wid
        = estimate_from_session_log fs (sessionLogPath wid) := by
      simp [get_current_usage, h1, h2]
    exact ⟨e, by
      rw [e]; exact estimate_from_session_log_source_present fs _ h2⟩
  · simp [get_current_usage, h1, h2]

/-- Witness for C7: the three fallback cases on concrete file systems. -/
theorem get_current_usage_fallback_witness :
    (get_current_usage (fun _ => none)
        (fun p => if p = transcriptPath "w" then some "x" else none)
        "w").source = "transcript"
      ∧ (get_current_usage (fun _ => none)
          (fun p => if p = sessionLogPath "w" then some "x" else none)
          "w").source = "session_log"
      ∧ get_current_usage (fun _ => none) (fun _ => none) "w"
          = ⟨0, 0, "no_files"⟩ :=
  ⟨((get_current_usage_fallback (fun _ => none)
      (fun p => if p = transcriptPath "w" then some "x" else none) "w").1
      (by decide)).2,
   ((get_current_usage_fallback (fun _ => none)
      (fun p => if p = sessionLogPath "w" then some "x" else none) "w").2.1
      (by decide) (by decide)).2,
   (get_current_usage_fallback (fun _ => none) (fun _ => none) "w").2.2
      rfl rfl⟩

/-- Claim C5 (amended): `should_terminate` returns `(true, message
containing "critical")` when `usage_pct >= critical_threshold`; returns
`(false, message containing "warning")` when
`warning_threshold <= usage_pct < critical_threshold`; and, provided the
configuration satisfies `warning_threshold <= critical_threshold`, returns
`(false, message containing "within safe limits")` when
`usage_pct < warning_threshold`. -/
theorem should_terminate_thresholds (u : TokenUsageSnapshot)
    (cfg : MonitorConfig) :
    (cfg.token_critical_threshold ≤ u.usage_pct →
        (should_terminate u cfg).1 = true
          ∧ strContains (should_terminate u cfg).2 "critical")
      ∧ (cfg.token_warning_threshold ≤ u.usage_pct →
          u.usage_pct < cfg.token_critical_threshold →
          (should_terminate u cfg).1 = false
            ∧ strContains (should_terminate u cfg).2 "warning")
      ∧ (cfg.token_warning_threshold ≤ cfg.token_critical_threshold →
          u.usage_pct < cfg.token_warning_threshold →
          (should_terminate u cfg).1 = false
            ∧ strContains (should_terminate u cfg).2 "within safe limits") := by
  refine ⟨fun hc => ?_, fun hw hc => ?_, fun hwc hw => ?_⟩
  · have e : should_terminate u cfg
        = (true, "Token usage " ++ toString u.usage_pct ++
            "% exceeds critical threshold") := by
      simp [should_terminate, hc]
    rw [e]
    refine ⟨rfl, ?_⟩
    have lit : ("% exceeds critical threshold" : String)
        = "% exceeds " ++ "critical" ++ " threshold" := rfl
    show strContains (("Token usage " ++ toString u.usage_pct) ++
      "% exceeds critical threshold") "critical"
    rw [lit]
    exact strContains_append_three _ _ _ _
  · have e : should_terminate u cfg
        = (false, "Token usage " ++ toString u.usage_pct ++
            "% exceeds warning threshold") := by
      simp [should_terminate, hw, not_le.mpr hc]
    rw [e]
    refine ⟨rfl, ?_⟩
    have lit : ("% exceeds warning threshold" : String)
        = "% exceeds " ++ "warning" ++ " threshold" := rfl
    show strContains (("Token usage " ++ toString u.usage_pct) ++
      "% exceeds warning threshold") "warning"
    rw [lit]
    exact strContains_append_three _ _ _ _
  · have hcrit : ¬ cfg.token_critical_threshold ≤ u.usage_pct :=
      not_le.mpr (lt_of_lt_of_le hw hwc)
    have e : should_terminate u cfg
        = (false, "Token usage " ++ toString u.usage_pct ++
            "% within safe limits") := by
      simp [should_terminate, hcrit, not_le.mpr hw]
    rw [e]
    refine ⟨rfl, ?_⟩
    have lit : ("% within safe limits" : String)
        = "% " ++ "within safe limits" := rfl
    show strContains (("Token usage " ++ toString u.usage_pct) ++
      "% within safe limits") "within safe limits"
    rw [lit]
    exact strContains_suffix _ _ _

/-- Counterexample to claim C5 as stated: with a configuration whose
critical threshold (20) lies below its warning threshold (80), a usage of
50% is below the warning threshold, yet `should_terminate` returns `true`
(the critical branch fires first), not the claimed
`(false, "within safe limits")`. -/
theorem should_terminate_thresholds_counterexample :
    (⟨50000, 50, "test"⟩ : TokenUsageSnapshot).usage_pct
        < (⟨"", 1, 80, 20, 3, 1⟩ : MonitorConfig).token_warning_threshold
      ∧ (should_terminate ⟨50000, 50, "test"⟩ ⟨"", 1, 80, 20, 3, 1⟩).1
          = true := by
  refine ⟨by norm_num, ?_⟩
  have hc : (⟨"", 1, 80, 20, 3, 1⟩ : MonitorConfig).token_critical_threshold
      ≤ (⟨50000, 50, "test"⟩ : TokenUsageSnapshot).usage_pct := by norm_num
  simp [should_terminate, hc]

/-- Witness for C5 at the test's configuration (warning 80, critical 90):
a 95% usage terminates with a message containing "critical". -/
theorem should_terminate_thresholds_witness :
    (should_terminate ⟨95000, 95, "test"⟩ ⟨"", 1, 80, 90, 3, 1⟩).1 = true
      ∧ strContains
          (should_terminate ⟨95000, 95, "test"⟩ ⟨"", 1, 80, 90, 3, 1⟩).2
          "critical" :=
  (should_terminate_thresholds ⟨95000, 95, "test"⟩
    ⟨"", 1, 80, 90, 3, 1⟩).1 (by norm_num)

/-- Claim C2: `_terminate_session` sends SIGTERM first and waits for
process exit with a timeout determined solely by the request's priority —
30 seconds for GRACEFUL and 5 for IMMEDIATE — before escalating to
SIGKILL exactly when the process is still alive after the window. -/
theorem terminate_session_priority_waits (req : TerminationRequest)
    (alive : Nat → Bool) :
    (req.priority = TerminationPriority.graceful →
        (terminate_session req alive).timeoutUsed = 30)
      ∧ (req.priority = TerminationPriority.immediate →
        (terminate_session req alive).timeoutUsed = 5)
      ∧ (terminate_session req alive).signals.head? = some Signal.SIGTERM
      ∧ (wait_for_process_exit alive (waitTimeout req.priority) = false →
          (terminate_session req alive).signals
            = [Signal.SIGTERM, Signal.SIGKILL])
      ∧ (wait_for_process_exit alive (waitTimeout req.priority) = true →
          (terminate_session req alive).signals = [Signal.SIGTERM]) := by
  cases hw : wait_for_process_exit alive (waitTimeout req.priority) <;>
    refine ⟨fun hp => ?_, fun hp => ?_, ?_, fun hx => ?_, fun hx => ?_⟩ <;>
    simp_all [terminate_session, waitTimeout]

/-- Witness for C2: with a process that never exits, a GRACEFUL request
uses the 30-second window and escalates to SIGKILL; an IMMEDIATE request
uses the 5-second window. -/
theorem terminate_session_priority_waits_witness :
    (terminate_session
        ⟨TerminationReason.token_limit_approaching,
          "claude --continue-session", TerminationPriority.graceful,
          85, 1234, "test_workspace"⟩ (fun _ => true)).timeoutUsed = 30
      ∧ (terminate_session
          ⟨TerminationReason.token_limit_approaching,
            "claude --continue-session", TerminationPriority.immediate,
            85, 1234, "test_workspace"⟩ (fun _ => true)).timeoutUsed = 5
      ∧ (terminate_session
          ⟨TerminationReason.token_limit_approaching,
            "claude --continue-session", TerminationPriority.graceful,
            85, 1234, "test_workspace"⟩ (fun _ => true)).signals
          = [Signal.SIGTERM, Signal.SIGKILL] :=
  ⟨(terminate_session_priority_waits
      ⟨TerminationReason.token_limit_approaching,
        "claude --continue-session", TerminationPriority.graceful,
        85, 1234, "test_workspace"⟩ (fun _ => true)).1 rfl,
   (terminate_session_priority_waits
      ⟨TerminationReason.token_limit_approaching,
        "claude --continue-session", TerminationPriority.immediate,
        85, 1234, "test_workspace"⟩ (fun _ => true)).2.1 rfl,
   (terminate_session_priority_waits
      ⟨TerminationReason.token_limit_approaching,
        "claude --continue-session", TerminationPriority.graceful,
        85, 1234, "test_workspace"⟩ (fun _ => true)).2.2.2.1 (by decide)⟩

/-- Handling a request file never creates a file: a path absent before
`handle_termination_request` is still absent afterwards. -/
theorem handle_termination_request_no_create
    (parse : String → Option TerminationRequest) (aliveNow : Nat → Bool)
    (fs : FileSystem) (p q : String) (h : fs q = none) :
    (handle_termination_request parse aliveNow fs p).1 q = none := by
  unfold handle_termination_request
  cases hc : fs p with
  | none => simpa using h
  | some content =>
    cases hp : parse content with
    | none => simp [hp, deleteFile, h]
    | some req =>
      cases ha : aliveNow req.pid <;> simp [hp, ha, deleteFile, h]

/-- A path absent from the file system stays absent across any further
sequence of request handlings. -/
theorem handleAll_no_create (parse : String → Option TerminationRequest)
    (aliveNow : Nat → Bool) (paths : List String) :
    ∀ fs q, fs q = none → handleAll parse aliveNow fs paths q = none := by
  induction paths with
  | nil => intro fs q h; simpa [handleAll] using h
  | cons p ps ih =>
    intro fs q h
    simp only [handleAll, List.foldl]
    exact ih _ q (handle_termination_request_no_create parse aliveNow fs p q h)

/-- Claim C1: after a successful load, `handle_termination_request`
deletes the request file exactly once (it no longer exists when handling
completes), and a subsequent scan cycle — even after handling any further
request files — never finds or reprocesses the same request. -/
theorem handle_termination_request_consumes
    (parse : String → Option TerminationRequest) (aliveNow : Nat → Bool)
    (fs : FileSystem) (path content : String) (h : fs path = some content) :
    (handle_termination_request parse aliveNow fs path).1 path = none
      ∧ (handle_termination_request parse aliveNow fs path).2.1.count path
          = 1
      ∧ (∀ w dirs, requestPath w = path →
          w ∉ scan_workspaces
            (handle_termination_request parse aliveNow fs path).1 dirs)
      ∧ (∀ more, handleAll parse aliveNow
            (handle_termination_request parse aliveNow fs path).1 more path
          = none) := by
  have e1 : (handle_termination_request parse aliveNow fs path).1
      = deleteFile fs path := by
    unfold handle_termination_request
    rw [h]
    cases hp : parse content with
    | none => simp [hp]
    | some req => cases ha : aliveNow req.pid <;> simp [hp, ha]
  have e2 : (handle_termination_request parse aliveNow fs path).2.1
      = [path] := by
    unfold handle_termination_request
    rw [h]
    cases hp : parse content with
    | none => simp [hp]
    | some req => cases ha : aliveNow req.pid <;> simp [hp, ha]
  have hdel : deleteFile fs path path = none := by simp [deleteFile]
  refine ⟨by rw [e1]; exact hdel, by rw [e2]; simp, ?_, ?_⟩
  · intro w dirs hw hmem
    rw [e1] at hmem
    have hpred := (List.mem_filter.mp hmem).2
    rw [hw] at hpred
    rw [hdel] at hpred
    simp at hpred
  · intro more
    apply handleAll_no_create
    rw [e1]
    exact hdel

/-- Witness for C1 on a one-workspace file system holding a request
file. -/
theorem handle_termination_request_consumes_witness :
    (handle_termination_request (fun _ => none) (fun _ => true)
        (fun p => if p = requestPath "test_workspace" then some "x"
          else none)
        (requestPath "test_workspace")).1 (requestPath "test_workspace")
        = none
      ∧ (handle_termination_request (fun _ => none) (fun _ => true)
          (fun p => if p = requestPath "test_workspace" then some "x"
            else none)
          (requestPath "test_workspace")).2.1.count
          (requestPath "test_workspace") = 1 :=
  ⟨(handle_termination_request_consumes (fun _ => none) (fun _ => true)
      (fun p => if p = requestPath "test_workspace" then some "x"
        else none)
      (requestPath "test_workspace") "x" (by decide)).1,
   (handle_termination_request_consumes (fun _ => none) (fun _ => true)
      (fun p => if p = requestPath "test_workspace" then some "x"
        else none)
      (requestPath "test_workspace") "x" (by decide)).2.1⟩

/-- Claim C4: if the workspace directory does not exist when
`_restart_session` runs, zero subprocesses are launched, exactly one
error is logged, no backoff sleep (retry) happens, and the run completes
normally (the model is a total function, so no exception propagates). -/
theorem restart_session_missing_workspace (cfg : MonitorConfig)
    (launch : Nat → Bool) :
    restart_session cfg false launch
      = ⟨0, [], false, 1⟩ := rfl

/-- Invariant of the bounded retry loop: starting at attempt `k ≥ 1` with
`fuel` attempts remaining, at most `fuel` launches happen, the i-th sleep
is `backoff * 2 ^ (k - 1 + i)`, and when every launch fails the loop uses
all its fuel and does not succeed. -/
theorem restartLoop_spec (backoff : ℚ) (launch : Nat → Bool) :
    ∀ fuel k, 1 ≤ k →
      (restartLoop backoff launch fuel k).1 ≤ fuel
        ∧ (∀ i, i < (restartLoop backoff launch fuel k).2.1.length →
            (restartLoop backoff launch fuel k).2.1.get? i
              = some (backoff * 2 ^ (k - 1 + i)))
        ∧ ((∀ j, launch j = false) →
            (restartLoop backoff launch fuel k).1 = fuel
              ∧ (restartLoop backoff launch fuel k).2.2 = false) := by
  intro fuel
  induction fuel with
  | zero =>
    intro k hk
    refine ⟨by simp [restartLoop], ?_, fun hall => by simp [restartLoop]⟩
    intro i hi
    simp [restartLoop] at hi
  | succ f ih =>
    intro k hk
    cases f with
    | zero =>
      cases hl : launch k with
      | true =>
        have e : restartLoop backoff launch (0 + 1) k = (1, [], true) := by
          show restartLoop backoff launch 1 k = _
          rw [restartLoop, if_pos hl]
        refine ⟨by rw [e], ?_, ?_⟩
        · intro i hi
          rw [e] at hi
          simp at hi
        · intro hall
          rw [hall k] at hl
          simp at hl
      | false =>
        have e : restartLoop backoff launch (0 + 1) k = (1, [], false) := by
          show restartLoop backoff launch 1 k = _
          rw [restartLoop, if_neg (by simp [hl])]
        refine ⟨by rw [e], ?_, fun hall => by rw [e]; exact ⟨rfl, rfl⟩⟩
        intro i hi
        rw [e] at hi
        simp at hi
    | succ f2 =>
      cases hl : launch k with
      | true =>
        have e : restartLoop backoff launch (f2 + 1 + 1) k
            = (1, [], true) := by
          show restartLoop backoff launch (f2 + 2) k = _
          rw [restartLoop, if_pos hl]
        refine ⟨by rw [e]; omega, ?_, ?_⟩
        · intro i hi
          rw [e] at hi
          simp at hi
        · intro hall
          rw [hall k] at hl
          simp at hl
      | false =>
        have ihk := ih (k + 1) (by omega)
        have e : restartLoop backoff launch (f2 + 1 + 1) k
            = ((restartLoop backoff launch (f2 + 1) (k + 1)).1 + 1,
               backoff * 2 ^ (k - 1)
                 :: (restartLoop backoff launch (f2 + 1) (k + 1)).2.1,
               (restartLoop backoff launch (f2 + 1) (k + 1)).2.2) := by
          show restartLoop backoff launch (f2 + 2) k = _
          rw [restartLoop, if_neg (by simp [hl])]
        refine ⟨?_, ?_, ?_⟩
        · rw [e]
          have := ihk.1
          simp only []
          omega
        · intro i hi
          rw [e] at hi ⊢
          cases i with
          | zero =>
            simp
          | succ i2 =>
            have hi2 : i2 < (restartLoop backoff launch (f2 + 1)
                (k + 1)).2.1.length := by
              simpa using hi
            rw [List.get?_cons_succ]
            rw [ihk.2.1 i2 hi2]
            have harith : k + 1 - 1 + i2 = k - 1 + (i2 + 1) := by omega
            rw [harith]
        · intro hall
          have h2 := ihk.2.2 hall
          rw [e]
          exact ⟨by rw [h2.1], h2.2⟩

/-- Claim C3: with an existing workspace, `_restart_session` launches at
most `max_restart_attempts` subprocess attempts; after the k-th failed
attempt (1-indexed) and before the next one it sleeps exactly
`restart_backoff_seconds * 2 ^ (k - 1)` seconds (the i-th recorded sleep,
0-indexed, is `restart_backoff_seconds * 2 ^ i`); and after exhausting
all attempts it gives up without retrying further. -/
theorem restart_session_backoff (cfg : MonitorConfig)
    (launch : Nat → Bool) :
    (restart_session cfg true launch).launches ≤ cfg.max_restart_attempts
      ∧ (∀ i, i < (restart_session cfg true launch).sleeps.length →
          (restart_session cfg true launch).sleeps.get? i
            = some (cfg.restart_backoff_seconds * 2 ^ i))
      ∧ ((∀ j, launch j = false) →
          (restart_session cfg true launch).launches
              = cfg.max_restart_attempts
            ∧ (restart_session cfg true launch).succeeded = false) := by
  have h := restartLoop_spec cfg.restart_backoff_seconds launch
    cfg.max_restart_attempts 1 le_rfl
  have e1 : (restart_session cfg true launch).launches
      = (restartLoop cfg.restart_backoff_seconds launch
          cfg.max_restart_attempts 1).1 := rfl
  have e2 : (restart_session cfg true launch).sleeps
      = (restartLoop cfg.restart_backoff_seconds launch
          cfg.max_restart_attempts 1).2.1 := rfl
  have e3 : (restart_session cfg true launch).succeeded
      = (restartLoop cfg.restart_backoff_seconds launch
          cfg.max_restart_attempts 1).2.2 := rfl
  refine ⟨by rw [e1]; exact h.1, ?_, ?_⟩
  · intro i hi
    rw [e2] at hi ⊢
    have hg := h.2.1 i hi
    simpa using hg
  · intro hall
    have h2 := h.2.2 hall
    exact ⟨by rw [e1]; exact h2.1, by rw [e3]; exact h2.2⟩

/-- Witness for C3 at the test's configuration (3 attempts, backoff 1)
with a launcher that always fails: all 3 attempts are used and the
restart does not succeed. -/
theorem restart_session_backoff_witness :
    (restart_session ⟨".codex/workspaces", 1, 80, 90, 3, 1⟩ true
        (fun _ => false)).launches = 3
      ∧ (restart_session ⟨".codex/workspaces", 1, 80, 90, 3, 1⟩ true
          (fun _ => false)).succeeded = false :=
  (restart_session_backoff ⟨".codex/workspaces", 1, 80, 90, 3, 1⟩
    (fun _ => false)).2.2 (fun _ => rfl)

/-- Claim C6: `create_checkpoint(d)` followed by
`restore_from_checkpoint()` returns exactly `d`; calling
`restore_from_checkpoint()` on a freshly constructed session (no
checkpoint ever created) returns the not-found signal `none` rather than
an error, and `load_checkpoint` of an unknown session id likewise
returns `none`. -/
theorem checkpoint_roundtrip (s : SessionState) (d : CheckpointData)
    (now : Nat) (sid : String) (msgs : List String)
    (ctx cfg : List (String × String)) (sid2 : String) :
    restore_from_checkpoint (create_checkpoint s d now) = some d
      ∧ restore_from_checkpoint (SessionState.new sid msgs ctx cfg) = none
      ∧ load_checkpoint emptyStore sid2 = none :=
  ⟨rfl, rfl, rfl⟩

/-- Claim C10: `create_checkpoint(d)` sets `checkpoint_data` to `d` and
`last_checkpoint_at` to a non-`none` timestamp while leaving the
token-usage history — and every other field — unchanged; a freshly
constructed session state has `checkpoint_data = none`,
`last_checkpoint_at = none` and an empty token-usage history. -/
theorem create_checkpoint_frame (s : SessionState) (d : CheckpointData)
    (now : Nat) (sid : String) (msgs : List String)
    (ctx cfg : List (String × String)) :
    (create_checkpoint s d now).checkpoint_data = some d
      ∧ (create_checkpoint s d now).last_checkpoint_at = some now
      ∧ (create_checkpoint s d now).last_checkpoint_at ≠ none
      ∧ (create_checkpoint s d now).token_usage_history
          = s.token_usage_history
      ∧ (create_checkpoint s d now).session_id = s.session_id
      ∧ (create_checkpoint s d now).messages = s.messages
      ∧ (create_checkpoint s d now).context = s.context
      ∧ (create_checkpoint s d now).config = s.config
      ∧ (SessionState.new sid msgs ctx cfg).checkpoint_data = none
      ∧ (SessionState.new sid msgs ctx cfg).last_checkpoint_at = none
      ∧ (SessionState.new sid msgs ctx cfg).token_usage_history = [] :=
  ⟨rfl, rfl, by simp [create_checkpoint], rfl, rfl, rfl, rfl, rfl, rfl,
    rfl, rfl⟩

end SessionMonitor
